import Mathlib

/-!
Verification of the account-ledger core of the mBoB banking program
(`PassangDema_02240124_A3_PA.py`).

The embedding mirrors the Python source statement by statement.  Monetary
amounts and balances are modelled as `Int` (the source uses Python numbers;
only `+`, `-` and order comparisons occur, so the arithmetic is exact here).
Each mutating method becomes a function from the receiver's state to a pair
`(new state, Option BankError)`: the `BankError` component is `none` exactly
when the Python method returns normally, and `some e` when it raises `e`.
Because every `raise` in the source happens before any field mutation, the
error branches of the embedding return the state exactly as it stood at the
raise point.
-/

namespace MBoB

/-- The two exception classes of the source (`InvalidAmountError`,
`InsufficientFundsError`), each carrying the message string it is raised
with. -/
inductive BankError where
  | InvalidAmountError (msg : String)
  | InsufficientFundsError (msg : String)
deriving DecidableEq, Repr

/-- Embeds the `BankAccount` class: account number, holder name, password,
account type, balance and the transaction log, as set up by `__init__`. -/
structure BankAccount where
  acc_no : String
  name : String
  password : String
  acc_type : String
  balance : Int
  transactions : List String
deriving DecidableEq, Repr

/-- `BankAccount.deposit`: reject non-positive amounts, otherwise add to the
balance and append a `Deposited Nu.<amount>` record. -/
def BankAccount.deposit (self : BankAccount) (amount : Int) :
    BankAccount × Option BankError :=
  if amount ≤ 0 then (self, some (.InvalidAmountError "Amount must be positive"))
  else
    ({ self with
        balance := self.balance + amount,
        transactions := self.transactions ++ [s!"Deposited Nu.{amount}"] },
      none)

/-- `BankAccount.withdraw`: reject non-positive amounts, then amounts above
the balance, otherwise subtract and append a `Withdrew Nu.<amount>`
record. -/
def BankAccount.withdraw (self : BankAccount) (amount : Int) :
    BankAccount × Option BankError :=
  if amount ≤ 0 then (self, some (.InvalidAmountError "Amount must be positive"))
  else if amount > self.balance then
    (self, some (.InsufficientFundsError "Not enough balance"))
  else
    ({ self with
        balance := self.balance - amount,
        transactions := self.transactions ++ [s!"Withdrew Nu.{amount}"] },
      none)

/-- `BankAccount.transfer`.  In the source the self-transfer guard is
`target == self`; `BankAccount` defines no `__eq__`, so Python falls back to
object identity.  The parameter `sameObject` carries the value of that
identity test: `true` exactly when `target` is the very object `self`.  The
success branch (mutating both accounts) is reached only with
`sameObject = false`, where the two objects are distinct and the paired
updates below are the source's four mutation statements in order. -/
def BankAccount.transfer (self : BankAccount) (amount : Int)
    (target : BankAccount) (sameObject : Bool) :
    (BankAccount × BankAccount) × Option BankError :=
  if amount ≤ 0 then
    ((self, target), some (.InvalidAmountError "Amount must be positive"))
  else if amount > self.balance then
    ((self, target), some (.InsufficientFundsError "Not enough balance"))
  else if sameObject then
    ((self, target), some (.InvalidAmountError "Cannot transfer to same account"))
  else
    let tname := target.name
    let taccno := target.acc_no
    let sname := self.name
    let saccno := self.acc_no
    (({ self with
          balance := self.balance - amount,
          transactions :=
            self.transactions ++ [s!"Sent Nu.{amount} to {tname} (Acc: {taccno})"] },
      { target with
          balance := target.balance + amount,
          transactions :=
            target.transactions ++
              [s!"Received Nu.{amount} from {sname} (Acc: {saccno})"] }),
      none)

/-- `BankAccount.mobile_topup`: same guards as `withdraw`; on success deduct
the amount and append a `Mobile top-up Nu.<amount> to <number>` record. -/
def BankAccount.mobile_topup (self : BankAccount) (amount : Int)
    (number : String) : BankAccount × Option BankError :=
  if amount ≤ 0 then (self, some (.InvalidAmountError "Amount must be positive"))
  else if amount > self.balance then
    (self, some (.InsufficientFundsError "Not enough balance"))
  else
    ({ self with
        balance := self.balance - amount,
        transactions := self.transactions ++ [s!"Mobile top-up Nu.{amount} to {number}"] },
      none)

/-- `BankAccount.get_transactions`: return the transaction history list. -/
def BankAccount.get_transactions (self : BankAccount) : List String :=
  self.transactions

example :
    (BankAccount.deposit ⟨"001", "Alice", "p1", "Personal", 1000, []⟩ 500).1.balance
      = 1500 := by decide

example :
    ((BankAccount.mk "001" "Alice" "p1" "Personal" 1000 []).withdraw 300).1.transactions
      = ["Withdrew Nu.300"] := by decide

/-- The error outcomes of `BankingApp.login`, named after the error
messages the source shows: `"No accounts available"`, `"Account not found"`
and `"Incorrect password"` (the latter two are the spec's `AccountNotFound`
and `AuthenticationFailed` kinds). -/
inductive LoginError where
  | NoAccounts
  | AccountNotFound
  | AuthenticationFailed
deriving DecidableEq, Repr

/-- Lookup in the `accounts` dictionary (`acc_no` is the key), embedded as
an association list with unique keys. -/
def lookupAcc : List (String × BankAccount) → String → Option BankAccount
  | [], _ => none
  | (k, a) :: rest, key => if k = key then some a else lookupAcc rest key

/-- Embeds the ledger state of the `BankingApp` class: the `accounts`
registry (`acc_no` to `BankAccount`) and `current`, the logged-in account.
In the source `current` holds a reference into the registry; here it holds
the account's key (its `acc_no`), `none` standing for Python `None`. -/
structure BankingApp where
  accounts : List (String × BankAccount)
  current : Option String
deriving DecidableEq, Repr

/-- `BankingApp.login`, with the two dialog inputs as arguments.  The guard
order is the source's: empty registry, then missing (or empty, Python
`not acc_no`) account number, then password mismatch; on success `current`
is set to the resolved account. -/
def BankingApp.login (app : BankingApp) (acc_no password : String) :
    BankingApp × Option LoginError :=
  if app.accounts.isEmpty then (app, some .NoAccounts)
  else if acc_no = "" then (app, some .AccountNotFound)
  else
    match lookupAcc app.accounts acc_no with
    | none => (app, some .AccountNotFound)
    | some acc =>
      if password ≠ acc.password then (app, some .AuthenticationFailed)
      else ({ app with current := some acc_no }, none)

/-- One accepted (non-raising) `BankAccount` operation on the process's
account population, given as a list: an account's object identity is its
position, so the source's `target == self` identity test on a transfer from
slot `i` to slot `j` is `i = j`. -/
inductive Step : List BankAccount → List BankAccount → Prop
  | deposit (l : List BankAccount) (i : Fin l.length) (amount : Int)
      (a' : BankAccount) (h : (l.get i).deposit amount = (a', none)) :
      Step l (l.set i a')
  | withdraw (l : List BankAccount) (i : Fin l.length) (amount : Int)
      (a' : BankAccount) (h : (l.get i).withdraw amount = (a', none)) :
      Step l (l.set i a')
  | mobile_topup (l : List BankAccount) (i : Fin l.length) (amount : Int)
      (number : String) (a' : BankAccount)
      (h : (l.get i).mobile_topup amount number = (a', none)) :
      Step l (l.set i a')
  | transfer (l : List BankAccount) (i j : Fin l.length) (amount : Int)
      (p : BankAccount × BankAccount)
      (h : (l.get i).transfer amount (l.get j) (decide (i.val = j.val)) = (p, none)) :
      Step l ((l.set i p.1).set j p.2)

/-- All balances of the population are non-negative. -/
def NonNeg (l : List BankAccount) : Prop := ∀ a ∈ l, 0 ≤ a.balance

theorem deposit_none (a : BankAccount) (x : Int) (a' : BankAccount)
    (h : a.deposit x = (a', none)) :
    0 < x ∧ a'.balance = a.balance + x ∧
      a'.transactions = a.transactions ++ [s!"Deposited Nu.{x}"] ∧
      a'.acc_no = a.acc_no ∧ a'.name = a.name ∧ a'.password = a.password ∧
      a'.acc_type = a.acc_type := by
  unfold BankAccount.deposit at h
  split_ifs at h with h1
  · simp at h
  · rw [Prod.mk.injEq] at h
    obtain ⟨h, -⟩ := h
    subst h
    exact ⟨by omega, rfl, rfl, rfl, rfl, rfl, rfl⟩

theorem withdraw_none (a : BankAccount) (x : Int) (a' : BankAccount)
    (h : a.withdraw x = (a', none)) :
    0 < x ∧ x ≤ a.balance ∧ a'.balance = a.balance - x ∧
      a'.transactions = a.transactions ++ [s!"Withdrew Nu.{x}"] := by
  unfold BankAccount.withdraw at h
  split_ifs at h with h1 h2
  · simp at h
  · simp at h
  · rw [Prod.mk.injEq] at h
    obtain ⟨h, -⟩ := h
    subst h
    exact ⟨by omega, by omega, rfl, rfl⟩

theorem mobile_topup_none (a : BankAccount) (x : Int) (n : String)
    (a' : BankAccount) (h : a.mobile_topup x n = (a', none)) :
    0 < x ∧ x ≤ a.balance ∧ a'.balance = a.balance - x ∧
      a'.transactions = a.transactions ++ [s!"Mobile top-up Nu.{x} to {n}"] := by
  unfold BankAccount.mobile_topup at h
  split_ifs at h with h1 h2
  · simp at h
  · simp at h
  · rw [Prod.mk.injEq] at h
    obtain ⟨h, -⟩ := h
    subst h
    exact ⟨by omega, by omega, rfl, rfl⟩

theorem transfer_none (a : BankAccount) (x : Int) (b : BankAccount)
    (s : Bool) (p : BankAccount × BankAccount)
    (h : a.transfer x b s = (p, none)) :
    0 < x ∧ x ≤ a.balance ∧ s = false ∧
      p.1.balance = a.balance - x ∧ p.2.balance = b.balance + x ∧
      p.1.transactions = a.transactions ++
        ["Sent Nu." ++ toString x ++ " to " ++ b.name ++ " (Acc: " ++ b.acc_no ++ ")"] ∧
      p.2.transactions = b.transactions ++
        ["Received Nu." ++ toString x ++ " from " ++ a.name ++ " (Acc: " ++ a.acc_no ++ ")"] := by
  unfold BankAccount.transfer at h
  split_ifs at h with h1 h2 h3
  · simp at h
  · simp at h
  · simp at h
  · rw [Prod.mk.injEq] at h
    obtain ⟨h, -⟩ := h
    subst h
    exact ⟨by omega, by omega, by simpa using h3, rfl, rfl, rfl, rfl⟩

theorem step_nonneg {l l' : List BankAccount} (h : Step l l') (hl : NonNeg l) :
    NonNeg l' := by
  cases h with
  | deposit i x a' hop =>
    obtain ⟨hx, hbal, -⟩ := deposit_none _ _ _ hop
    intro c hc
    rcases List.mem_or_eq_of_mem_set hc with hc | rfl
    · exact hl c hc
    · have := hl (l.get i) (l.get_mem i.1 i.2)
      omega
  | withdraw i x a' hop =>
    obtain ⟨hx, hle, hbal, -⟩ := withdraw_none _ _ _ hop
    intro c hc
    rcases List.mem_or_eq_of_mem_set hc with hc | rfl
    · exact hl c hc
    · omega
  | mobile_topup i x n a' hop =>
    obtain ⟨hx, hle, hbal, -⟩ := mobile_topup_none _ _ _ _ hop
    intro c hc
    rcases List.mem_or_eq_of_mem_set hc with hc | rfl
    · exact hl c hc
    · omega
  | transfer i j x p hop =>
    obtain ⟨hx, hle, hs, hb1, hb2, -⟩ := transfer_none _ _ _ _ _ hop
    intro c hc
    rcases List.mem_or_eq_of_mem_set hc with hc | rfl
    · rcases List.mem_or_eq_of_mem_set hc with hc | rfl
      · exact hl c hc
      · omega
    · have := hl (l.get j) (l.get_mem j.1 j.2)
      omega

/-- C1: a transfer of a positive amount `x` not exceeding the sender's
balance, between two distinct account objects, succeeds; the sender's
balance drops by exactly `x`, the receiver's rises by exactly `x`, and
their sum is conserved. -/
theorem C1_transfer_conservation (a b : BankAccount) (x : Int)
    (hpos : 0 < x) (hle : x ≤ a.balance) :
    (a.transfer x b false).2 = none ∧
      (a.transfer x b false).1.1.balance = a.balance - x ∧
      (a.transfer x b false).1.2.balance = b.balance + x ∧
      (a.transfer x b false).1.1.balance + (a.transfer x b false).1.2.balance
        = a.balance + b.balance := by
  unfold BankAccount.transfer
  split_ifs with h1 h2 h3
  · exact absurd hpos (by omega)
  · exact absurd hle (by omega)
  · exact h3.elim
  · exact ⟨rfl, rfl, rfl, by
      show a.balance - x + (b.balance + x) = a.balance + b.balance
      ring⟩

theorem C1_transfer_conservation_witness :
    (0 : Int) < 200 ∧ (200 : Int) ≤ (1000 : Int) ∧
      ((BankAccount.mk "001" "Alice" "p1" "Personal" 1000 []).transfer 200
          (BankAccount.mk "002" "Bob" "p2" "Business" 500 []) false).2 = none :=
  ⟨by decide, by decide,
    (C1_transfer_conservation
      (BankAccount.mk "001" "Alice" "p1" "Personal" 1000 [])
      (BankAccount.mk "002" "Bob" "p2" "Business" 500 []) 200
      (by decide) (by decide)).1⟩

/-- C2: starting from a population of accounts whose opening balances are
all non-negative, every population reachable by accepted (non-raising)
deposit, withdraw, transfer and mobile top-up operations has only
non-negative balances. -/
theorem C2_balance_nonneg (l₀ l : List BankAccount) (h0 : NonNeg l₀)
    (h : Relation.ReflTransGen Step l₀ l) : NonNeg l := by
  induction h with
  | refl => exact h0
  | tail _ hstep ih => exact step_nonneg hstep ih

theorem C2_balance_nonneg_witness :
    0 ≤ (BankAccount.mk "001" "Alice" "p1" "Personal" 995 ["Withdrew Nu.5"]).balance :=
  C2_balance_nonneg
    [BankAccount.mk "001" "Alice" "p1" "Personal" 1000 []]
    ([BankAccount.mk "001" "Alice" "p1" "Personal" 1000 []].set 0
      (BankAccount.mk "001" "Alice" "p1" "Personal" 995 ["Withdrew Nu.5"]))
    (by intro a ha; simp at ha; subst ha; decide)
    (Relation.ReflTransGen.single
      (Step.withdraw [BankAccount.mk "001" "Alice" "p1" "Personal" 1000 []]
        ⟨0, by decide⟩ 5
        (BankAccount.mk "001" "Alice" "p1" "Personal" 995 ["Withdrew Nu.5"])
        (by decide)))
    _ (by simp)

theorem toString_str (s : String) : toString s = s := rfl

/-- The first account of the spec's concrete scenario. -/
def acc001 : BankAccount := ⟨"001", "Alice", "p1", "Personal", 1000, []⟩

/-- The second account of the spec's concrete scenario. -/
def acc002 : BankAccount := ⟨"002", "Bob", "p2", "Business", 500, []⟩

/-- An account object distinct from `acc001` but carrying the same account
number. -/
def acc001dup : BankAccount := ⟨"001", "Eve", "p9", "Personal", 50, []⟩

/-- C3: whenever a deposit, withdraw, mobile top-up or transfer fails
(raises), the calling account — and, for transfer, the target account as
well — is returned exactly as it was: balance and history untouched, no
partial mutation. -/
theorem C3_failure_no_mutation (a b : BankAccount) (x : Int) (n : String)
    (s : Bool) :
    ((a.deposit x).2.isSome → (a.deposit x).1 = a) ∧
    ((a.withdraw x).2.isSome → (a.withdraw x).1 = a) ∧
    ((a.mobile_topup x n).2.isSome → (a.mobile_topup x n).1 = a) ∧
    ((a.transfer x b s).2.isSome → (a.transfer x b s).1 = (a, b)) := by
  refine ⟨?_, ?_, ?_, ?_⟩
  · unfold BankAccount.deposit
    split_ifs <;> simp
  · unfold BankAccount.withdraw
    split_ifs <;> simp
  · unfold BankAccount.mobile_topup
    split_ifs <;> simp
  · unfold BankAccount.transfer
    split_ifs <;> simp

theorem C3_failure_no_mutation_witness :
    (acc001.deposit (-5)).1 = acc001 ∧
      (acc001.transfer 2000 acc002 false).1 = (acc001, acc002) :=
  ⟨(C3_failure_no_mutation acc001 acc002 (-5) "17123456" false).1 (by decide),
    (C3_failure_no_mutation acc001 acc002 2000 "17123456" false).2.2.2 (by decide)⟩

/-- C4 counterexample: the claim says a self-transfer never fails with
`InsufficientFundsError`, whatever the amount and balance; but on an
account with balance `0`, `transfer(1, self)` hits the insufficient-funds
guard (which the source checks before the self-transfer guard) and raises
`InsufficientFundsError`, not `InvalidAmountError`. -/
theorem C4_claim_counterexample :
    ((BankAccount.mk "001" "Alice" "p1" "Personal" 0 []).transfer 1
        (BankAccount.mk "001" "Alice" "p1" "Personal" 0 []) true).2
      = some (.InsufficientFundsError "Not enough balance") := by decide

/-- C4 (amended): a self-transfer always fails and mutates nothing; it
fails with `InvalidAmountError` when the amount is non-positive or when
the amount is covered by the balance, but with `InsufficientFundsError`
when the positive amount exceeds the balance, because the source checks
funds before checking for a self-transfer. -/
theorem C4_self_transfer_error_kinds (a : BankAccount) (x : Int) :
    (a.transfer x a true).1 = (a, a) ∧
    (x ≤ 0 →
      (a.transfer x a true).2 = some (.InvalidAmountError "Amount must be positive")) ∧
    (0 < x → a.balance < x →
      (a.transfer x a true).2 = some (.InsufficientFundsError "Not enough balance")) ∧
    (0 < x → x ≤ a.balance →
      (a.transfer x a true).2 = some (.InvalidAmountError "Cannot transfer to same account")) := by
  unfold BankAccount.transfer
  split_ifs with h1 h2 h3
  · exact ⟨rfl, fun _ => rfl,
      fun hx _ => absurd h1 (by omega), fun hx _ => absurd h1 (by omega)⟩
  · exact ⟨rfl, fun hx => absurd hx (by omega),
      fun _ _ => rfl, fun _ hle => absurd h2 (by omega)⟩
  · exact ⟨rfl, fun hx => absurd hx (by omega),
      fun _ hgt => absurd hgt (by omega), fun _ _ => rfl⟩
  · exact absurd rfl h3

theorem C4_self_transfer_error_kinds_witness :
    (acc001.transfer 100 acc001 true).2
      = some (.InvalidAmountError "Cannot transfer to same account") :=
  (C4_self_transfer_error_kinds acc001 100).2.2.2 (by decide) (by decide)

/-- C5: every successful deposit, withdraw or mobile top-up appends exactly
one record to the caller's history, a successful transfer appends exactly
one record to each side, and a failed operation leaves every history
untouched — so no operation ever removes or reorders existing records. -/
theorem C5_history_append (a b : BankAccount) (x : Int) (n : String)
    (s : Bool) :
    ((a.deposit x).2 = none →
      (a.deposit x).1.transactions
        = a.transactions ++ ["Deposited Nu." ++ toString x]) ∧
    ((a.deposit x).2.isSome → (a.deposit x).1.transactions = a.transactions) ∧
    ((a.withdraw x).2 = none →
      (a.withdraw x).1.transactions
        = a.transactions ++ ["Withdrew Nu." ++ toString x]) ∧
    ((a.withdraw x).2.isSome → (a.withdraw x).1.transactions = a.transactions) ∧
    ((a.mobile_topup x n).2 = none →
      (a.mobile_topup x n).1.transactions
        = a.transactions ++ ["Mobile top-up Nu." ++ toString x ++ " to " ++ n]) ∧
    ((a.mobile_topup x n).2.isSome →
      (a.mobile_topup x n).1.transactions = a.transactions) ∧
    ((a.transfer x b s).2 = none →
      (a.transfer x b s).1.1.transactions = a.transactions ++
          ["Sent Nu." ++ toString x ++ " to " ++ b.name ++ " (Acc: " ++ b.acc_no ++ ")"] ∧
      (a.transfer x b s).1.2.transactions = b.transactions ++
          ["Received Nu." ++ toString x ++ " from " ++ a.name ++ " (Acc: " ++ a.acc_no ++ ")"]) ∧
    ((a.transfer x b s).2.isSome →
      (a.transfer x b s).1.1.transactions = a.transactions ∧
      (a.transfer x b s).1.2.transactions = b.transactions) := by
  refine ⟨?_, ?_, ?_, ?_, ?_, ?_, ?_, ?_⟩
  · unfold BankAccount.deposit
    split_ifs <;> simp [toString_str, String.append_empty]
  · unfold BankAccount.deposit
    split_ifs <;> simp
  · unfold BankAccount.withdraw
    split_ifs <;> simp [toString_str, String.append_empty]
  · unfold BankAccount.withdraw
    split_ifs <;> simp
  · unfold BankAccount.mobile_topup
    split_ifs <;> simp [toString_str, String.append_empty]
  · unfold BankAccount.mobile_topup
    split_ifs <;> simp
  · unfold BankAccount.transfer
    split_ifs <;> simp [toString_str, String.append_empty]
  · unfold BankAccount.transfer
    split_ifs <;> simp

theorem C5_history_append_witness :
    (acc001.deposit 5).1.transactions = acc001.transactions ++ ["Deposited Nu.5"] :=
  (C5_history_append acc001 acc002 5 "17123456" false).1 (by decide)

/-- The transfer of the spec's concrete scenario: `acc001.transfer(200, acc002)`
on two distinct account objects. -/
def scenarioTransfer : (BankAccount × BankAccount) × Option BankError :=
  acc001.transfer 200 acc002 false

/-- C6 counterexample: in the concrete scenario the claim expects the
record `"Sent 200 to Bob (Acc: 002)"` in the sender's history, but the
source writes `"Sent Nu.200 to Bob (Acc: 002)"` (a `Nu.` currency prefix
before the amount), so the claimed record is absent. -/
theorem C6_claim_counterexample :
    "Sent 200 to Bob (Acc: 002)" ∉ scenarioTransfer.1.1.transactions := by
  decide

/-- C6 (amended): the scenario transfer succeeds with balances 800 and 700,
and the history records are `"Sent Nu.200 to Bob (Acc: 002)"` and
`"Received Nu.200 from Alice (Acc: 001)"` — as the claim states but with
the source's `Nu.` prefix on the amounts. -/
theorem C6_concrete_scenario :
    scenarioTransfer.2 = none ∧
    scenarioTransfer.1.1.balance = 800 ∧
    scenarioTransfer.1.2.balance = 700 ∧
    "Sent Nu.200 to Bob (Acc: 002)" ∈ scenarioTransfer.1.1.transactions ∧
    "Received Nu.200 from Alice (Acc: 001)" ∈ scenarioTransfer.1.2.transactions := by
  decide

theorem lookupAcc_isEmpty_false (l : List (String × BankAccount))
    (k : String) (acc : BankAccount) (h : lookupAcc l k = some acc) :
    l.isEmpty = false := by
  cases l with
  | nil => simp [lookupAcc] at h
  | cons p rest => rfl

/-- C7: for a registered account (resolved by `lookupAcc`, with the
non-empty number registration guarantees), login with the matching
password succeeds and sets `current` to that account, leaving the registry
untouched; login with any other password fails with the
incorrect-password error (`AuthenticationFailed`) and changes nothing. -/
theorem C7_login_behavior (app : BankingApp) (accNo pw : String)
    (acc : BankAccount) (hacc : lookupAcc app.accounts accNo = some acc)
    (hne : accNo ≠ "") :
    (pw = acc.password →
      app.login accNo pw = ({ app with current := some accNo }, none)) ∧
    (pw ≠ acc.password →
      app.login accNo pw = (app, some .AuthenticationFailed)) := by
  have hemp := lookupAcc_isEmpty_false app.accounts accNo acc hacc
  constructor <;> intro hpw <;>
    simp [BankingApp.login, hemp, hne, hacc, hpw]

theorem C7_login_behavior_witness :
    (BankingApp.mk [("001", acc001)] none).login "001" "p1"
        = (BankingApp.mk [("001", acc001)] (some "001"), none) ∧
      (BankingApp.mk [("001", acc001)] none).login "001" "wrong"
        = (BankingApp.mk [("001", acc001)] none, some .AuthenticationFailed) :=
  ⟨(C7_login_behavior (BankingApp.mk [("001", acc001)] none) "001" "p1" acc001
      (by decide) (by decide)).1 (by decide),
    (C7_login_behavior (BankingApp.mk [("001", acc001)] none) "001" "wrong" acc001
      (by decide) (by decide)).2 (by decide)⟩

/-- C8: mobile top-up and withdraw succeed and fail in exactly the same
cases with exactly the same error, leave the same balance, leave the
account untouched on failure, and on success differ only in the text of
the single history record each appends. -/
theorem C8_topup_withdraw_equiv (a : BankAccount) (x : Int) (n : String) :
    (a.mobile_topup x n).2 = (a.withdraw x).2 ∧
    (a.mobile_topup x n).1.balance = (a.withdraw x).1.balance ∧
    ((a.withdraw x).2 = none →
      (a.withdraw x).1.transactions
        = a.transactions ++ ["Withdrew Nu." ++ toString x] ∧
      (a.mobile_topup x n).1.transactions
        = a.transactions ++ ["Mobile top-up Nu." ++ toString x ++ " to " ++ n]) ∧
    ((a.withdraw x).2 ≠ none →
      (a.withdraw x).1 = a ∧ (a.mobile_topup x n).1 = a) := by
  unfold BankAccount.withdraw BankAccount.mobile_topup
  split_ifs <;> simp [toString_str, String.append_empty]

theorem C8_topup_withdraw_equiv_witness :
    (acc001.withdraw 100).1.transactions
        = acc001.transactions ++ ["Withdrew Nu.100"] ∧
      (acc001.mobile_topup 100 "17123456").1.transactions
        = acc001.transactions ++ ["Mobile top-up Nu.100 to 17123456"] :=
  (C8_topup_withdraw_equiv acc001 100 "17123456").2.2.1 (by decide)

/-- C9: the balance after depositing `x` then `y` equals the balance after
depositing `y` then `x`, for positive `x` and `y`. -/
theorem C9_deposit_comm (a : BankAccount) (x y : Int)
    (hx : 0 < x) (hy : 0 < y) :
    ((a.deposit x).1.deposit y).1.balance
      = ((a.deposit y).1.deposit x).1.balance := by
  unfold BankAccount.deposit
  split_ifs with h1 h2 h3
  all_goals first
  | exact absurd hx (by omega)
  | exact absurd hy (by omega)
  | (show a.balance + x + y = a.balance + y + x
     ring)

theorem C9_deposit_comm_witness :
    ((acc001.deposit 3).1.deposit 4).1.balance
      = ((acc001.deposit 4).1.deposit 3).1.balance :=
  C9_deposit_comm acc001 3 4 (by decide) (by decide)

/-- C10: the self-transfer guard is object identity, not account-number
equality: a transfer between two distinct account objects (`sameObject =
false`) that share the same account number succeeds whenever the amount is
positive and covered by the sender's balance. -/
theorem C10_identity_guard (a b : BankAccount) (x : Int)
    (_hno : a.acc_no = b.acc_no) (hpos : 0 < x) (hle : x ≤ a.balance) :
    (a.transfer x b false).2 = none := by
  unfold BankAccount.transfer
  split_ifs with h1 h2 h3
  · exact absurd hpos (by omega)
  · exact absurd hle (by omega)
  · exact h3.elim
  · rfl

theorem C10_identity_guard_witness :
    (acc001.transfer 10 acc001dup false).2 = none :=
  C10_identity_guard acc001 acc001dup 10 (by decide) (by decide) (by decide)

end MBoB
